import Mathlib

/-!
Shallow embedding of `src/app.py` (FastAPI multi-agent compliance service)
and verification of the specification claims about it.
-/

namespace App

/-! ## Data model for the dispatch and aggregation core -/

/-- One content item of an agent answer returned by the concurrent
orchestration; these items always carry a text payload (`TextContent.text`). -/
structure AnswerItem where
  text : String
deriving Repr, DecidableEq

/-- One agent answer from the concurrent orchestration: the agent name
plus its ordered content items, as consumed by `analyse_task`. -/
structure Answer where
  name : String
  items : List AnswerItem
deriving Repr, DecidableEq

/-- Exceptions that Python can raise inside `analyse_task`:
a timeout of `fut.get`, a remote orchestration error surfacing from the
future, or an `IndexError` from `a.items[0]` on an empty item list. -/
inductive PyError where
  | timeoutError
  | orchestrationError (msg : String)
  | indexError
deriving Repr, DecidableEq

/-- `a.items[0]` followed by `.text`, with Python list-index semantics:
raises `IndexError` on an empty list. Builds the f-string
`f"{a.name}:\n{a.items[0].text}"` of `app.py` line 88. -/
def headerLine (a : Answer) : Except PyError String :=
  match a.items with
  | [] => .error .indexError
  | i :: _ => .ok (a.name ++ ":\n" ++ i.text)

/-- The body of `analyse_task` after `fut.get` has produced `answers`
(`app.py` line 88): `"\n\n".join(f"{a.name}:\n{a.items[0].text}" for a in
answers)`.  The generator is evaluated left to right and the first
`IndexError` raised aborts the join. -/
def joinAnswers (answers : List Answer) : Except PyError String := do
  let lines ← answers.mapM headerLine
  return String.intercalate "\n\n" lines

/-- `IndegeneCompliancePlugin.analyse_task` (`app.py` lines 85-88), as a
function of the result of `await fut.get(timeout=50)`: when the future
raises (timeout or orchestration failure) the exception propagates out of
`analyse_task`; otherwise the answers are formatted by `joinAnswers`. -/
def analyse_task (futResult : Except PyError (List Answer)) :
    Except PyError String := do
  let answers ← futResult
  joinAnswers answers

/-- The formatted header of one answer when its item list is non-empty
(`headD` is only a total stand-in; theorems assume non-emptiness). -/
def headerOf (a : Answer) : String :=
  a.name ++ ":\n" ++ (a.items.headD ⟨""⟩).text

/-- The aggregated reply in the all-success case: every agent text,
preceded by its agent-name header line, blank-line separated, in
registration order. -/
def aggregateSpec (answers : List Answer) : String :=
  String.intercalate "\n\n" (answers.map headerOf)

/-! ## Conversation session store (`threads` dict and `get_thread`) -/

/-- The process-wide `threads : Dict[str, ChatHistoryAgentThread]` of
`app.py` line 115, together with a counter that models the identity of
the next freshly constructed `ChatHistoryAgentThread()` object.  The
association list keeps dict insertion order; distinct counter values
model distinct object identities. -/
structure ThreadStore where
  threads : List (String × Nat)
  next : Nat
deriving Repr, DecidableEq

/-- Dict membership / lookup, `cid in threads` and `threads[cid]`. -/
def lookupThread (ts : List (String × Nat)) (cid : String) : Option Nat :=
  match ts with
  | [] => none
  | (k, v) :: rest => if k = cid then some v else lookupThread rest cid

/-- `get_thread` (`app.py` lines 117-121): return the existing thread for
`cid` or insert a fresh one.  Returns the thread instance (as its
identity) and the updated store.  The Python function contains no
`await`, so under the cooperative (asyncio) scheduling of the service it
executes atomically; any set of concurrent calls is a serialization of
such atomic steps. -/
def get_thread (cid : String) (s : ThreadStore) : Nat × ThreadStore :=
  match lookupThread s.threads cid with
  | some t => (t, s)
  | none => (s.next, ⟨s.threads ++ [(cid, s.next)], s.next + 1⟩)

/-- Number of entries of the store bound to `cid` (a Python dict holds at
most one; the invariant below keeps the model honest about that). -/
def countKey (ts : List (String × Nat)) (cid : String) : Nat :=
  (ts.filter fun p => p.1 = cid).length

/-- Store well-formedness: keys are pairwise distinct (true of a Python
dict) and every stored thread identity is below the freshness counter. -/
def WFStore (s : ThreadStore) : Prop :=
  (s.threads.map Prod.fst).Nodup ∧ ∀ p ∈ s.threads, p.2 < s.next

/-! ## HTTP layer: request parsing and the buffered `chat` endpoint -/

/-- Parsed request body: `user_query` is required, `conversation_id`
optional (`none` when the field is absent from the JSON body). -/
structure ChatRequestBody where
  user_query : String
  conversation_id : Option String
deriving Repr, DecidableEq

/-- The validated `ChatRequest` model (`app.py` lines 25-27). -/
structure ChatRequest where
  user_query : String
  conversation_id : String
deriving Repr, DecidableEq

/-- Pydantic validation of the body against `ChatRequest`: an absent
`conversation_id` takes the declared default `"default"`. -/
def parseChatRequest (b : ChatRequestBody) : ChatRequest :=
  { user_query := b.user_query
    conversation_id := b.conversation_id.getD "default" }

/-- One item of the host agent response message.  `text` is `none` when
the item has no `text` attribute (models `getattr(item, "text", None)`);
`some ""` models an empty text attribute, which is falsy in Python. -/
structure MsgItem where
  text : Option String
deriving Repr, DecidableEq

/-- The host agent response message consumed by `chat`. -/
structure HostResponse where
  items : List MsgItem
deriving Repr, DecidableEq

/-- The Python truthiness test `getattr(item, "text", None)` of `app.py`
line 137: present and non-empty. -/
def hasText (i : MsgItem) : Bool :=
  match i.text with
  | some t => t ≠ ""
  | none => false

/-- `plain_response` of `chat` (`app.py` lines 135-138):
`" ".join(item.text for item in assistant_msg.items if getattr(item,
"text", None))`, i.e. the text of the items passing the truthiness
filter, in item order, joined by a single space. -/
def plain_response (msg : HostResponse) : String :=
  String.intercalate " "
    ((msg.items.filter hasText).map fun i => i.text.getD "")

/-- The response body of the buffered endpoint: a single field
`assistant` holding a string (`return {"assistant": plain_response}`). -/
structure ChatResponse where
  assistant : String
deriving Repr, DecidableEq

/-- The `chat` handler (`app.py` lines 126-139) as a function of the
parsed request, of the host agent response for this turn, and of the
thread store: it resolves the conversation thread with `get_thread` and
returns `{"assistant": plain_response}` plus the updated store. -/
def chat (req : ChatRequestBody) (resp : HostResponse) (s : ThreadStore) :
    ChatResponse × ThreadStore :=
  let parsed := parseChatRequest req
  let s1 := (get_thread parsed.conversation_id s).2
  ({ assistant := plain_response resp }, s1)

/-! ## Configuration loading at module import time -/

/-- The process environment. -/
def Env : Type := String → Option String

/-- `os.environ[k]`: raises `KeyError` (here: `Except.error k`) when the
variable is absent. -/
def environGet (env : Env) (k : String) : Except String String :=
  match env k with
  | some v => .ok v
  | none => .error k

/-- The configuration values read at module import time. -/
structure Config where
  project_conn_str : String
  az_openai_endpoint : String
  az_openai_deployment : String
  az_openai_api_key : String
deriving Repr, DecidableEq

/-- The module-level configuration reads of `app.py` lines 18-23, in
source order; they run at import time, before the FastAPI app is created
and hence before any request is served.  A missing variable raises
`KeyError` and aborts startup. -/
def loadConfig (env : Env) : Except String Config := do
  let p ← environGet env "PROJECT_CONN_STR"
  let e ← environGet env "AZURE_OPENAI_ENDPOINT"
  let d ← environGet env "AZURE_OPENAI_DEPLOYMENT"
  let k ← environGet env "AZURE_OPENAI_API_KEY"
  return ⟨p, e, d, k⟩

/-- The required environment variables of `app.py` lines 18-23. -/
def requiredKeys : List String :=
  ["PROJECT_CONN_STR", "AZURE_OPENAI_ENDPOINT",
   "AZURE_OPENAI_DEPLOYMENT", "AZURE_OPENAI_API_KEY"]

/-! ## Streaming endpoint (modelled) -/

/-- Split a character stream into chunks following a schedule of chunk
sizes; once the schedule is exhausted any remaining characters are
flushed as one final chunk. -/
def chunksBy : List Nat → List Char → List (List Char)
  | [], rest => if rest.isEmpty then [] else [rest]
  | n :: ns, rest =>
      if rest.isEmpty then [] else rest.take n :: chunksBy ns (rest.drop n)

/-- Modelled from the spec: the repository's `POST
/rcacapa-query/stream_plain` handler is not among the source files under
`src/` (the spec describes three near-duplicate variants and only one is
present).  Per the spec it accepts the same request body and emits the
very content the buffered endpoint would return, as an incremental
`text/plain` stream whose chunk boundaries are unspecified; we model the
boundary choice as an arbitrary schedule of chunk sizes. -/
def stream_plain (sizes : List Nat) (body : String) : List String :=
  (chunksBy sizes body.toList).map List.asString

/-- Concatenation of all streamed chunks, in emission order. -/
def concatChunks : List String → String
  | [] => ""
  | c :: cs => c ++ concatChunks cs

/-- Specification-side selection of the item texts that `chat` keeps:
a present and non-empty text survives, anything else is dropped. -/
def selectText (i : MsgItem) : Option String :=
  match i.text with
  | some t => if t = "" then none else some t
  | none => none

/-- Observation on a call result: `true` when the call ended in a raised
exception rather than a returned value. -/
def raisesOut (r : Except PyError String) : Bool :=
  match r with
  | .error _ => true
  | .ok _ => false

/-! ## Helper lemmas -/

theorem mapM_headerLine_eq (answers : List Answer)
    (h : ∀ a ∈ answers, a.items ≠ []) :
    answers.mapM headerLine = .ok (answers.map headerOf) := by
  rw [← List.mapM'_eq_mapM]
  induction answers with
  | nil => rfl
  | cons a rest ih =>
    have ha : a.items ≠ [] := h a (by simp)
    obtain ⟨i, tl, hi⟩ := List.exists_cons_of_ne_nil ha
    have hrest := ih (fun b hb => h b (by simp [hb]))
    simp [List.mapM', headerLine, hi, hrest, headerOf]
    rfl

theorem joinAnswers_ok (answers : List Answer)
    (h : ∀ a ∈ answers, a.items ≠ []) :
    joinAnswers answers = .ok (aggregateSpec answers) := by
  calc joinAnswers answers
      = String.intercalate "\n\n" <$> answers.mapM headerLine := rfl
    _ = String.intercalate "\n\n" <$> Except.ok (answers.map headerOf) := by
          rw [mapM_headerLine_eq answers h]
    _ = .ok (aggregateSpec answers) := rfl

theorem analyse_task_all_success (answers : List Answer)
    (h : ∀ a ∈ answers, a.items ≠ []) :
    analyse_task (.ok answers) = .ok (aggregateSpec answers) := by
  have h0 : analyse_task (.ok answers) = joinAnswers answers := rfl
  rw [h0, joinAnswers_ok answers h]

theorem get_thread_found {cid : String} {s : ThreadStore} {t : Nat}
    (hl : lookupThread s.threads cid = some t) : get_thread cid s = (t, s) := by
  unfold get_thread
  rw [hl]

theorem get_thread_new {cid : String} {s : ThreadStore}
    (hl : lookupThread s.threads cid = none) :
    get_thread cid s = (s.next, ⟨s.threads ++ [(cid, s.next)], s.next + 1⟩) := by
  unfold get_thread
  rw [hl]

theorem lookupThread_append_self (ts : List (String × Nat)) (cid : String)
    (v : Nat) (h : lookupThread ts cid = none) :
    lookupThread (ts ++ [(cid, v)]) cid = some v := by
  induction ts with
  | nil => simp [lookupThread]
  | cons p rest ih =>
    obtain ⟨k, w⟩ := p
    by_cases hk : k = cid
    · simp [lookupThread, hk] at h
    · simp only [lookupThread, List.cons_append, if_neg hk] at h ⊢
      exact ih h

theorem lookupThread_none_not_mem (ts : List (String × Nat)) (cid : String)
    (h : lookupThread ts cid = none) : cid ∉ ts.map Prod.fst := by
  induction ts with
  | nil => simp
  | cons p rest ih =>
    obtain ⟨k, w⟩ := p
    by_cases hk : k = cid
    · simp [lookupThread, hk] at h
    · simp only [lookupThread, if_neg hk] at h
      simp only [List.map_cons, List.mem_cons, not_or]
      exact ⟨fun he => hk he.symm, ih h⟩

theorem countKey_eq_zero_of_not_mem (ts : List (String × Nat)) (cid : String)
    (h : cid ∉ ts.map Prod.fst) : countKey ts cid = 0 := by
  induction ts with
  | nil => rfl
  | cons p rest ih =>
    simp only [List.map_cons, List.mem_cons, not_or] at h
    have hk : ¬(p.1 = cid) := fun he => h.1 (he.symm)
    simp only [countKey, List.filter_cons, decide_eq_true_eq]
    rw [if_neg hk]
    exact ih h.2

theorem countKey_append_self (ts : List (String × Nat)) (cid : String)
    (v : Nat) : countKey (ts ++ [(cid, v)]) cid = countKey ts cid + 1 := by
  simp [countKey, List.filter_append]

theorem countKey_of_lookup_some (ts : List (String × Nat)) (cid : String)
    (t : Nat) (hnd : (ts.map Prod.fst).Nodup)
    (h : lookupThread ts cid = some t) : countKey ts cid = 1 := by
  induction ts with
  | nil => simp [lookupThread] at h
  | cons p rest ih =>
    obtain ⟨k, w⟩ := p
    simp only [List.map_cons, List.nodup_cons] at hnd
    by_cases hk : k = cid
    · subst hk
      have h0 : countKey rest k = 0 :=
        countKey_eq_zero_of_not_mem rest k hnd.1
      simp only [countKey, List.filter_cons, decide_eq_true_eq, if_true] at h0 ⊢
      simp only [List.length_cons]
      omega
    · simp only [lookupThread, if_neg hk] at h
      have hc := ih hnd.2 h
      simp only [countKey, List.filter_cons, decide_eq_true_eq] at hc ⊢
      rw [if_neg hk]
      exact hc

theorem get_thread_idem (cid : String) (s : ThreadStore) :
    get_thread cid (get_thread cid s).2 = get_thread cid s := by
  rcases hl : lookupThread s.threads cid with _ | t
  · rw [get_thread_new hl]
    exact get_thread_found (lookupThread_append_self s.threads cid s.next hl)
  · rw [get_thread_found hl]
    exact get_thread_found hl

theorem get_thread_count (cid : String) (s : ThreadStore) (hwf : WFStore s) :
    countKey (get_thread cid s).2.threads cid = 1 := by
  rcases hl : lookupThread s.threads cid with _ | t
  · rw [get_thread_new hl]
    have h0 := countKey_eq_zero_of_not_mem s.threads cid
      (lookupThread_none_not_mem s.threads cid hl)
    rw [countKey_append_self, h0]
  · rw [get_thread_found hl]
    exact countKey_of_lookup_some s.threads cid t hwf.1 hl

theorem get_thread_wf (cid : String) (s : ThreadStore) (hwf : WFStore s) :
    WFStore (get_thread cid s).2 := by
  rcases hl : lookupThread s.threads cid with _ | t
  · rw [get_thread_new hl]
    have hnm := lookupThread_none_not_mem s.threads cid hl
    constructor
    · simp only [List.map_append, List.map_cons, List.map_nil]
      rw [List.nodup_append]
      refine ⟨hwf.1, List.nodup_singleton cid, ?_⟩
      intro a ha hb
      simp only [List.mem_singleton] at hb
      exact hnm (hb ▸ ha)
    · intro p hp
      simp only [List.mem_append, List.mem_singleton] at hp
      rcases hp with hp | hp
      · exact Nat.lt_succ_of_lt (hwf.2 p hp)
      · simp [hp]
  · rw [get_thread_found hl]
    exact hwf

theorem chunksBy_flatten (sizes : List Nat) (cs : List Char) :
    (chunksBy sizes cs).flatten = cs := by
  induction sizes generalizing cs with
  | nil =>
    by_cases h : cs.isEmpty
    · simp [chunksBy, h, List.isEmpty_iff.mp h]
    · simp [chunksBy, h]
  | cons n ns ih =>
    cases hc : cs.isEmpty with
    | true => simp [chunksBy, hc, List.isEmpty_iff.mp hc]
    | false =>
      show (if cs.isEmpty then []
        else cs.take n :: chunksBy ns (cs.drop n)).flatten = cs
      rw [hc, if_neg Bool.false_ne_true, List.flatten_cons, ih]
      exact List.take_append_drop n cs

theorem concatChunks_map_asString (ls : List (List Char)) :
    concatChunks (ls.map List.asString) = ls.flatten.asString := by
  induction ls with
  | nil => rfl
  | cons a rest ih =>
    simp only [List.map_cons, concatChunks, ih, List.flatten_cons]
    apply String.ext
    simp [List.asString]

theorem stream_concat (sizes : List Nat) (body : String) :
    concatChunks (stream_plain sizes body) = body := by
  unfold stream_plain
  rw [concatChunks_map_asString, chunksBy_flatten]
  apply String.ext
  simp [List.asString]

theorem filter_map_eq_filterMap (l : List MsgItem) :
    (l.filter hasText).map (fun i => i.text.getD "") = l.filterMap selectText := by
  induction l with
  | nil => rfl
  | cons i rest ih =>
    rcases hi : i.text with _ | t
    · simp [List.filter_cons, List.filterMap_cons, hasText, selectText, hi, ih]
    · by_cases ht : t = ""
      · simp [List.filter_cons, List.filterMap_cons, hasText, selectText, hi, ht, ih]
      · simp [List.filter_cons, List.filterMap_cons, hasText, selectText, hi, ht, ih]

theorem plain_response_empty_of_no_text (msg : HostResponse)
    (h : ∀ i ∈ msg.items, hasText i = false) : plain_response msg = "" := by
  have hf : msg.items.filter hasText = [] := by
    rw [List.filter_eq_nil_iff]
    intro a ha
    simp [h a ha]
  rw [plain_response, hf]
  rfl

/-! ## Claim theorems -/

/-- Claim C1: when every agent succeeds (every answer carries at least one
content item), the aggregated reply of `analyse_task` is the
concatenation, in registration order, of each agent's text preceded by a
header line `name:\ntext`, consecutive entries separated by a blank
line. -/
theorem aggregate_all_success_format (answers : List Answer)
    (h : ∀ a ∈ answers, a.items ≠ []) :
    analyse_task (.ok answers) = .ok (aggregateSpec answers) :=
  analyse_task_all_success answers h

/-- Witness for C1: two agents succeeding with texts `T1` and `T2` give
exactly the buffered response `"Agent1:\nT1\n\nAgent2:\nT2"`. -/
theorem aggregate_all_success_format_witness :
    analyse_task (.ok [⟨"Agent1", [⟨"T1"⟩]⟩, ⟨"Agent2", [⟨"T2"⟩]⟩])
      = .ok "Agent1:\nT1\n\nAgent2:\nT2" :=
  (aggregate_all_success_format
    [⟨"Agent1", [⟨"T1"⟩]⟩, ⟨"Agent2", [⟨"T2"⟩]⟩] (by decide)).trans (by rfl)

/-- Counterexample to claim C2: with zero successful answers the
aggregation of `analyse_task` returns the empty string, not a designated
non-empty fallback distinct from the empty string (and no caveat line
exists anywhere in the code). -/
theorem aggregate_zero_success_empty_string :
    analyse_task (.ok ([] : List Answer)) = .ok "" := rfl

/-- Claim C2 (amended): the aggregation emits no caveat line at all — the
reply is exactly the header-join of the answers it is given — and when
zero answers are present it returns the empty string. -/
theorem aggregate_no_caveat_policy :
    analyse_task (.ok ([] : List Answer)) = .ok "" ∧
    ∀ answers : List Answer, (∀ a ∈ answers, a.items ≠ []) →
      analyse_task (.ok answers) = .ok (aggregateSpec answers) :=
  ⟨rfl, fun answers h => analyse_task_all_success answers h⟩

/-- Witness for C2 (amended): a single successful answer is rendered as
its header-join with nothing appended. -/
theorem aggregate_no_caveat_policy_witness :
    analyse_task (.ok [(⟨"Agent1", [⟨"T1"⟩]⟩ : Answer)]) = .ok "Agent1:\nT1" :=
  (aggregate_no_caveat_policy.2 [⟨"Agent1", [⟨"T1"⟩]⟩] (by decide)).trans (by rfl)

/-- Counterexample to claim C3: a timeout of `fut.get` inside
`analyse_task` is not captured as a per-agent outcome in a returned
result — the exception escapes the dispatch operation. -/
theorem dispatch_error_escapes :
    analyse_task (.error .timeoutError) = .error .timeoutError ∧
    raisesOut (analyse_task (.error .timeoutError)) = true :=
  ⟨rfl, rfl⟩

/-- Claim C3 (amended): every agent-invocation failure or deadline expiry
raised by `fut.get` propagates unchanged out of `analyse_task`; no
per-agent Failure/Timeout outcome is recorded. -/
theorem dispatch_error_propagates (e : PyError) :
    analyse_task (.error e) = .error e := rfl

/-- Claim C4: `get_thread` creates a session on first reference and every
later call with the same identifier returns that same instance and the
same store, so exactly one session exists per identifier; `get_thread`
contains no suspension point, hence under the cooperative scheduling of
the service any concurrent calls serialize into exactly this sequential
composition. -/
theorem session_get_or_create_unique (cid : String) (s : ThreadStore)
    (hwf : WFStore s) :
    get_thread cid (get_thread cid s).2 = get_thread cid s ∧
    countKey (get_thread cid s).2.threads cid = 1 ∧
    WFStore (get_thread cid s).2 :=
  ⟨get_thread_idem cid s, get_thread_count cid s hwf, get_thread_wf cid s hwf⟩

/-- Witness for C4: first access to `"c1"` on the empty store creates one
session; a second access returns the same instance and store. -/
theorem session_get_or_create_unique_witness :
    get_thread "c1" (get_thread "c1" ⟨[], 0⟩).2 = get_thread "c1" ⟨[], 0⟩ ∧
    countKey (get_thread "c1" (⟨[], 0⟩ : ThreadStore)).2.threads "c1" = 1 ∧
    WFStore (get_thread "c1" (⟨[], 0⟩ : ThreadStore)).2 :=
  session_get_or_create_unique "c1" ⟨[], 0⟩ ⟨by simp, by simp⟩

/-- Claim C5: the streamed endpoint emits the exact content of the
buffered endpoint — for every chunk-boundary schedule and every host
response, the concatenation of all chunks of `stream_plain` applied to
the buffered `plain_response` equals that buffered string. -/
theorem stream_plain_matches_buffered (sizes : List Nat)
    (resp : HostResponse) :
    concatChunks (stream_plain sizes (plain_response resp))
      = plain_response resp :=
  stream_concat sizes (plain_response resp)

/-- Claim C6: a request body omitting `conversation_id` is processed with
`conversation_id = "default"`, and the response of the buffered endpoint
is the object whose single field `assistant` holds the joined string. -/
theorem chat_default_conversation_and_shape (q : String)
    (resp : HostResponse) (s : ThreadStore) :
    (parseChatRequest ⟨q, none⟩).conversation_id = "default" ∧
    (chat ⟨q, none⟩ resp s).1 = ⟨plain_response resp⟩ :=
  ⟨rfl, rfl⟩

/-- Claim C7: aggregation is a pure deterministic function of the
dispatch result — equal inputs always produce equal aggregated
replies. -/
theorem aggregate_deterministic (r1 r2 : Except PyError (List Answer))
    (h : r1 = r2) : analyse_task r1 = analyse_task r2 :=
  congrArg analyse_task h

/-- Witness for C7: two equal concrete dispatch results give the very
same reply. -/
theorem aggregate_deterministic_witness :
    analyse_task (.ok [⟨"Agent1", [⟨"T1"⟩]⟩])
      = analyse_task (.ok [⟨"Agent1", [⟨"T1"⟩]⟩]) :=
  aggregate_deterministic (.ok [⟨"Agent1", [⟨"T1"⟩]⟩])
    (.ok [⟨"Agent1", [⟨"T1"⟩]⟩]) rfl

/-- Claim C8: if any of the four required configuration variables is
absent from the environment, the module-level configuration load fails
with a `KeyError` before the service can handle requests. -/
theorem missing_config_fails_startup (env : Env) (k : String)
    (hk : k ∈ requiredKeys) (hmiss : env k = none) :
    ∃ m, loadConfig env = .error m := by
  simp only [requiredKeys, List.mem_cons, List.mem_singleton,
    List.not_mem_nil, or_false] at hk
  rcases hk with rfl | rfl | rfl | rfl
  · exact ⟨"PROJECT_CONN_STR", by
      simp only [loadConfig, environGet, hmiss]
      rfl⟩
  · rcases h1 : env "PROJECT_CONN_STR" with _ | v1
    · exact ⟨"PROJECT_CONN_STR", by
        simp only [loadConfig, environGet, h1]
        rfl⟩
    · exact ⟨"AZURE_OPENAI_ENDPOINT", by
        simp only [loadConfig, environGet, h1, hmiss]
        rfl⟩
  · rcases h1 : env "PROJECT_CONN_STR" with _ | v1
    · exact ⟨"PROJECT_CONN_STR", by
        simp only [loadConfig, environGet, h1]
        rfl⟩
    · rcases h2 : env "AZURE_OPENAI_ENDPOINT" with _ | v2
      · exact ⟨"AZURE_OPENAI_ENDPOINT", by
          simp only [loadConfig, environGet, h1, h2]
          rfl⟩
      · exact ⟨"AZURE_OPENAI_DEPLOYMENT", by
          simp only [loadConfig, environGet, h1, h2, hmiss]
          rfl⟩
  · rcases h1 : env "PROJECT_CONN_STR" with _ | v1
    · exact ⟨"PROJECT_CONN_STR", by
        simp only [loadConfig, environGet, h1]
        rfl⟩
    · rcases h2 : env "AZURE_OPENAI_ENDPOINT" with _ | v2
      · exact ⟨"AZURE_OPENAI_ENDPOINT", by
          simp only [loadConfig, environGet, h1, h2]
          rfl⟩
      · rcases h3 : env "AZURE_OPENAI_DEPLOYMENT" with _ | v3
        · exact ⟨"AZURE_OPENAI_DEPLOYMENT", by
            simp only [loadConfig, environGet, h1, h2, h3]
            rfl⟩
        · exact ⟨"AZURE_OPENAI_API_KEY", by
            simp only [loadConfig, environGet, h1, h2, h3, hmiss]
            rfl⟩

/-- Witness for C8: an empty environment makes the configuration load
fail. -/
theorem missing_config_fails_startup_witness :
    ∃ m, loadConfig (fun _ => none) = .error m :=
  missing_config_fails_startup (fun _ => none) "PROJECT_CONN_STR"
    (by decide) rfl

/-- Claim C9: `analyse_task` reads `a.items[0].text` without a guard: for
every answer collection whose members each have at least one item the
join succeeds, and an answer with an empty item list makes the join raise
`IndexError` instead of returning a value. -/
theorem analyse_task_unguarded_index :
    (∀ answers : List Answer, (∀ a ∈ answers, a.items ≠ []) →
      joinAnswers answers = .ok (aggregateSpec answers)) ∧
    joinAnswers [⟨"CategoriserAgent", []⟩] = .error .indexError :=
  ⟨fun answers h => joinAnswers_ok answers h, rfl⟩

/-- Witness for C9: a one-answer collection with a non-empty item list
joins successfully. -/
theorem analyse_task_unguarded_index_witness :
    joinAnswers [⟨"Agent1", [⟨"T1"⟩]⟩] = .ok "Agent1:\nT1" :=
  (analyse_task_unguarded_index.1 [⟨"Agent1", [⟨"T1"⟩]⟩] (by decide)).trans
    (by rfl)

/-- Claim C10: the buffered endpoint builds the `assistant` string by
joining with a single space the texts of exactly those items carrying a
present non-empty text attribute, in item order; when no item carries
text it returns the empty string rather than failing. -/
theorem assistant_join_nonempty_texts (resp : HostResponse) :
    plain_response resp
      = String.intercalate " " (resp.items.filterMap selectText) ∧
    ((∀ i ∈ resp.items, hasText i = false) → plain_response resp = "") :=
  ⟨by rw [plain_response, filter_map_eq_filterMap],
   fun h => plain_response_empty_of_no_text resp h⟩

/-- Witness for C10: a response whose items carry no usable text (one
text-less item, one empty text) yields the empty assistant string. -/
theorem assistant_join_nonempty_texts_witness :
    plain_response ⟨[⟨none⟩, ⟨some ""⟩]⟩ = "" :=
  (assistant_join_nonempty_texts ⟨[⟨none⟩, ⟨some ""⟩]⟩).2 (by decide)

end App
